import Mathlib

/-!
Shallow embedding of the ReDerma backend (src/migrations/001_initial.js) and
verification of its specification claims.

Time is modelled as milliseconds since epoch (Nat).  External services
(bcrypt, Cloudinary, OpenAI, Stripe network calls) are modelled by explicit
outcome parameters; the Sequelize datastore is modelled as in-memory lists.
-/

namespace ReDerma

/-- One day in milliseconds. -/
def msPerDay : Nat := 24 * 60 * 60 * 1000

/-- Limiter window of `analysisLimiter` (src/middleware/rateLimit.js): one hour. -/
def windowMs : Nat := 60 * 60 * 1000

/-- Maximum image byte size (src/services/imageService.js and multer limits): 10 MiB. -/
def maxImageSize : Nat := 10 * 1024 * 1024

/-- Allowed MIME types (src/services/imageService.js `validateImage`). -/
def allowedTypes : List String := ["image/jpeg", "image/png", "image/jpg"]

/-- Environment-derived configuration. -/
structure Config where
  retentionDays : Nat
deriving Repr, DecidableEq

/-- Default configuration from the shipped .env: DATA_RETENTION_DAYS=365. -/
def defaultConfig : Config := { retentionDays := 365 }

/-- Row of the `Users` table (src/models/User.js). -/
structure User where
  id : String
  email : String
  password : String
  isPremium : Bool
  stripeCustomerId : Option String
  stripeSubscriptionId : Option String
  subscriptionStatus : String
  language : String
  country : Option String
  age : Option Nat
  sex : Option String
  gdprConsentDate : Option Nat
  marketingConsent : Bool
  dataRetentionConsent : Bool
  lastLogin : Option Nat
  accountDeletionScheduled : Option Nat
deriving Repr, DecidableEq

/-- Row of the `Analyses` table (src/models/Analysis.js). -/
structure Analysis where
  id : String
  userId : String
  imageUrl : String
  imagePublicId : String
  affectedArea : String
  questionnaire : String
  aiResult : String
  isPremiumAnalysis : Bool
  scheduledDeletion : Nat
  createdAt : Nat
deriving Repr, DecidableEq

/-- Row of the `Consents` table (src/models/Consent.js). -/
structure Consent where
  id : String
  userId : String
  consentType : String
  consentGiven : Bool
  ipAddress : String
  userAgent : String
  version : String
  createdAt : Nat
deriving Repr, DecidableEq

/-- The relational store: three tables with foreign keys to `users`. -/
structure DB where
  users : List User
  analyses : List Analysis
  consents : List Consent
deriving Repr, DecidableEq

/-- Predicate for `User.findByPk` / `findOne({where: {id}})`. -/
def byId (uid : String) (u : User) : Bool := u.id == uid

/-- Predicate for `User.findOne({where: {email}})`. -/
def byEmail (e : String) (u : User) : Bool := u.email == e

/-- Sequelize `instance.update(...)`: rewrite the first row matching `p`. -/
def updateFirst (p : α → Bool) (f : α → α) : List α → List α
  | [] => []
  | a :: l => if p a then f a :: l else a :: updateFirst p f l

/-- Sequelize `instance.destroy()`: remove the first row matching `p`. -/
def removeFirst (p : α → Bool) : List α → List α
  | [] => []
  | a :: l => if p a then l else a :: removeFirst p l

/-! ### StripeService (src/services/stripeService.js) -/

/-- The fields of a Stripe subscription object read by the webhook handlers. -/
structure StripeSubscription where
  id : String
  customer : String
  status : String
deriving Repr, DecidableEq

/-- The fields of a Stripe invoice object read by `handlePaymentFailed`. -/
structure StripeInvoice where
  customer : String
deriving Repr, DecidableEq

/-- A verified webhook event, after `stripe.webhooks.constructEvent`. -/
inductive StripeEvent where
  | subscriptionCreated (s : StripeSubscription)
  | subscriptionUpdated (s : StripeSubscription)
  | subscriptionDeleted (s : StripeSubscription)
  | invoicePaymentFailed (i : StripeInvoice)
  | other (kind : String)
deriving Repr, DecidableEq

/-- `StripeService.updateSubscriptionStatus`: find the user by
`stripeCustomerId` and overwrite subscription id, status and premium flag. -/
def updateSubscriptionStatus (users : List User) (s : StripeSubscription) : List User :=
  updateFirst (fun u => u.stripeCustomerId == some s.customer)
    (fun u => { u with stripeSubscriptionId := some s.id,
                       subscriptionStatus := s.status,
                       isPremium := s.status == "active" }) users

/-- `StripeService.handleSubscriptionDeleted`: find the user by
`stripeSubscriptionId`, set status inactive and premium false. -/
def handleSubscriptionDeleted (users : List User) (s : StripeSubscription) : List User :=
  updateFirst (fun u => u.stripeSubscriptionId == some s.id)
    (fun u => { u with subscriptionStatus := "inactive", isPremium := false }) users

/-- `StripeService.handlePaymentFailed`: find the user by `stripeCustomerId`
and set status past_due; the premium flag is not written. -/
def handlePaymentFailed (users : List User) (i : StripeInvoice) : List User :=
  updateFirst (fun u => u.stripeCustomerId == some i.customer)
    (fun u => { u with subscriptionStatus := "past_due" }) users

/-- `StripeService.handleWebhook` event dispatch (signature already verified);
unknown event kinds fall through the switch and are ignored. -/
def handleWebhook (users : List User) : StripeEvent → List User
  | .subscriptionCreated s => updateSubscriptionStatus users s
  | .subscriptionUpdated s => updateSubscriptionStatus users s
  | .subscriptionDeleted s => handleSubscriptionDeleted users s
  | .invoicePaymentFailed i => handlePaymentFailed users i
  | .other _ => users

/-- The §3 Account invariant: premium flag iff status is active. -/
def premiumInvariant (u : User) : Prop :=
  u.isPremium = true ↔ u.subscriptionStatus = "active"

instance (u : User) : Decidable (premiumInvariant u) := by
  unfold premiumInvariant
  infer_instance

/-! ### ImageService (src/services/imageService.js) -/

/-- A multer upload (`req.file`): the fields the service reads. -/
structure UploadedFile where
  mimetype : String
  size : Nat
deriving Repr, DecidableEq

/-- multer fileFilter test `file.mimetype.startsWith("image/")`, evaluated
on the character lists so that it computes by structural recursion. -/
def mimeIsImage (mimetype : String) : Bool :=
  "image/".data.isPrefixOf mimetype.data

/-- `ImageService.validateImage`: MIME whitelist then 10 MiB size bound;
throws (here: `Except.error` with the thrown message) on violation. -/
def validateImage (file : UploadedFile) : Except String Unit :=
  if !(allowedTypes.contains file.mimetype) then
    .error "Invalid file type. Only JPG and PNG are allowed."
  else if maxImageSize < file.size then
    .error "File too large. Maximum size is 10MB."
  else
    .ok ()

/-! ### analysisLimiter (src/middleware/rateLimit.js) -/

/-- `max: (req) => req.user?.isPremium ? 50 : 5`. -/
def analysisLimiterMax (u : User) : Nat := if u.isPremium then 50 else 5

/-- `keyGenerator: (req) => req.user?.id || req.ip` (JS falsiness: an empty
id string falls back to the network address). -/
def analysisLimiterKey (user : Option User) (ip : String) : String :=
  match user with
  | some u => if u.id == "" then ip else u.id
  | none => ip

/-- Requests recorded for `key` inside the rolling window ending at `now`. -/
def hitCount (limiter : List (String × Nat)) (key : String) (now : Nat) : Nat :=
  (limiter.filter (fun h => h.1 == key && now < h.2 + windowMs)).length

/-! ### Token issuance (src/middleware/auth.js `generateTokens`) -/

/-- A signed bearer token as produced by jwt.sign on a payload holding only
the user id; the key field names the env secret used to sign. -/
structure Jwt where
  userId : String
  key : String
deriving Repr, DecidableEq

/-- `generateTokens(userId)`: access and refresh tokens for the id. -/
def generateTokens (uid : String) : Jwt × Jwt :=
  ({ userId := uid, key := "JWT_SECRET" }, { userId := uid, key := "JWT_REFRESH_SECRET" })

/-! ### Route handlers.  Each handler models the full middleware chain of its
route; the HTTP status is the first field of the result. -/

/-- Result of routes without a structured body of interest. -/
structure HandlerResult where
  status : Nat
  db : DB
deriving Repr, DecidableEq

/-- Body of the 201 response of POST /auth/register that echoes account data. -/
structure RegisterResponse where
  id : String
  email : String
  isPremium : Bool
  accessToken : Jwt
  refreshToken : Jwt
deriving Repr, DecidableEq

/-- Result of POST /auth/register. -/
structure RegisterResult where
  status : Nat
  db : DB
  resp : Option RegisterResponse
deriving Repr, DecidableEq

/-- POST /auth/register (src/routes/auth.js).  `emailValid` is the outcome of
the `isEmail` validator, `gdprConsentTrue` of the equals-true check; `hashedPw`
is the bcrypt.hash(pw, 12) value stored by the `beforeCreate` hook. -/
def registerHandler (db : DB) (email pw hashedPw : String)
    (emailValid gdprConsentTrue : Bool) (language country : Option String)
    (now : Nat) (newUserId newConsentId ip ua : String) : RegisterResult :=
  if !emailValid || pw.length < 8 || !gdprConsentTrue then
    { status := 400, db := db, resp := none }
  else
    match db.users.find? (byEmail email) with
    | some _ => { status := 400, db := db, resp := none }
    | none =>
      let user : User :=
        { id := newUserId, email := email, password := hashedPw, isPremium := false,
          stripeCustomerId := none, stripeSubscriptionId := none,
          subscriptionStatus := "inactive", language := language.getD "English",
          country := country, age := none, sex := none,
          gdprConsentDate := if gdprConsentTrue then some now else none,
          marketingConsent := false, dataRetentionConsent := true,
          lastLogin := none, accountDeletionScheduled := none }
      let consent : Consent :=
        { id := newConsentId, userId := newUserId, consentType := "gdpr",
          consentGiven := true, ipAddress := ip, userAgent := ua,
          version := "1.0", createdAt := now }
      { status := 201,
        db := { db with users := db.users ++ [user], consents := db.consents ++ [consent] },
        resp := some { id := newUserId, email := user.email, isPremium := user.isPremium,
                       accessToken := (generateTokens newUserId).1,
                       refreshToken := (generateTokens newUserId).2 } }

/-- POST /auth/login (src/routes/auth.js).  `passwordMatches` is the outcome
of `bcrypt.compare`; on success `lastLogin` is overwritten. -/
def loginHandler (db : DB) (email : String) (passwordMatches : Bool) (now : Nat) :
    HandlerResult :=
  match db.users.find? (byEmail email) with
  | none => { status := 401, db := db }
  | some _ =>
    if !passwordMatches then { status := 401, db := db }
    else
      let users := updateFirst (byEmail email) (fun u => { u with lastLogin := some now }) db.users
      { status := 200, db := { db with users := users } }

/-- Outcomes of the external calls made while creating an analysis:
Cloudinary upload (url, publicId on success) and the OpenAI result. -/
structure AnalysisCtx where
  upload : Option (String × String)
  aiResult : Option String
  newId : String
deriving Repr, DecidableEq

/-- Result of POST /analysis; `blobStored` records whether the Cloudinary
upload succeeded (a stored blob), `validateCalled` whether
`ImageService.validateImage` was invoked. -/
structure AnalysisResult where
  status : Nat
  db : DB
  blobStored : Bool
  validateCalled : Bool
deriving Repr, DecidableEq

/-- POST /analysis (src/routes/analysis.js): authenticate →
requireGDPRConsent → analysisLimiter → multer (`image/*` filter, 10 MiB
limit; failures reach the generic error middleware as 500) → handler
(validationResult → file presence → validateImage → upload → AI → create).
Every error thrown inside the handler is caught and returned as 500. -/
def postAnalysisHandler (cfg : Config) (db : DB) (uid ip : String)
    (limiter : List (String × Nat)) (now : Nat) (file : Option UploadedFile)
    (qJson : Bool) (questionnaire : String) (areaBody : Option String)
    (ctx : AnalysisCtx) : AnalysisResult :=
  match db.users.find? (byId uid) with
  | none => { status := 401, db := db, blobStored := false, validateCalled := false }
  | some user =>
    if user.gdprConsentDate.isNone then
      { status := 403, db := db, blobStored := false, validateCalled := false }
    else if analysisLimiterMax user ≤ hitCount limiter (analysisLimiterKey (some user) ip) now then
      { status := 429, db := db, blobStored := false, validateCalled := false }
    else
      match file with
      | none =>
        { status := 400, db := db, blobStored := false, validateCalled := false }
      | some f =>
        if !(mimeIsImage f.mimetype) then
          { status := 500, db := db, blobStored := false, validateCalled := false }
        else if maxImageSize < f.size then
          { status := 500, db := db, blobStored := false, validateCalled := false }
        else if !qJson then
          { status := 400, db := db, blobStored := false, validateCalled := false }
        else
          match validateImage f with
          | .error _ => { status := 500, db := db, blobStored := false, validateCalled := true }
          | .ok _ =>
            match ctx.upload with
            | none => { status := 500, db := db, blobStored := false, validateCalled := true }
            | some (url, publicId) =>
              match ctx.aiResult with
              | none => { status := 500, db := db, blobStored := true, validateCalled := true }
              | some res =>
                let row : Analysis :=
                  { id := ctx.newId, userId := user.id, imageUrl := url,
                    imagePublicId := publicId, affectedArea := areaBody.getD "unknown",
                    questionnaire := questionnaire, aiResult := res,
                    isPremiumAnalysis := user.isPremium,
                    scheduledDeletion := now + cfg.retentionDays * msPerDay,
                    createdAt := now }
                { status := 201, db := { db with analyses := db.analyses ++ [row] },
                  blobStored := true, validateCalled := true }

/-- DELETE /analysis/:id (src/routes/analysis.js): owner-scoped lookup then
destroy (the Cloudinary delete swallows failures). -/
def deleteAnalysisHandler (db : DB) (uid aid : String) : HandlerResult :=
  match db.users.find? (byId uid) with
  | none => { status := 401, db := db }
  | some _ =>
    match db.analyses.find? (fun a => a.id == aid && a.userId == uid) with
    | none => { status := 404, db := db }
    | some _ =>
      { status := 200,
        db := { db with analyses := removeFirst (fun a => a.id == aid && a.userId == uid) db.analyses } }

/-- POST /subscription/create-checkout (src/routes/subscription.js): lazily
store a Stripe customer id on the account. -/
def createCheckoutHandler (db : DB) (uid newCustomerId : String) : HandlerResult :=
  match db.users.find? (byId uid) with
  | none => { status := 401, db := db }
  | some user =>
    if user.stripeCustomerId.isNone then
      let users := updateFirst (byId uid) (fun u => { u with stripeCustomerId := some newCustomerId }) db.users
      { status := 200, db := { db with users := users } }
    else { status := 200, db := db }

/-- POST /gdpr/consent (src/routes/gdpr.js): whitelist of consent types,
append a Consent row, then denormalize marketing/data_retention flags. -/
def consentHandler (db : DB) (uid ctype : String) (given : Bool)
    (ip ua newId : String) (now : Nat) : HandlerResult :=
  match db.users.find? (byId uid) with
  | none => { status := 401, db := db }
  | some _ =>
    if !(["marketing", "data_retention", "cookies"].contains ctype) then
      { status := 400, db := db }
    else
      let db1 : DB :=
        { db with consents := db.consents ++
            [{ id := newId, userId := uid, consentType := ctype, consentGiven := given,
               ipAddress := ip, userAgent := ua, version := "1.0", createdAt := now }] }
      let db2 : DB :=
        if ctype == "marketing" then
          let users := updateFirst (byId uid) (fun u => { u with marketingConsent := given }) db1.users
          { db1 with users := users }
        else if ctype == "data_retention" then
          let users := updateFirst (byId uid) (fun u => { u with dataRetentionConsent := given }) db1.users
          { db1 with users := users }
        else db1
      { status := 200, db := db2 }

/-- Success/failure of the external calls in POST /gdpr/delete-account. -/
structure ExtOutcome where
  stripeCancelOk : Bool
  blobDeleteOk : Bool
deriving Repr, DecidableEq

/-- Result of POST /gdpr/delete-account, recording which external delete
calls were issued. -/
structure DeleteResult where
  status : Nat
  db : DB
  stripeCancelCalled : Bool
  blobDeleteCalled : Bool
deriving Repr, DecidableEq

/-- The local-row deletion of account erasure: all Analyses and Consents of
the user, then the user row itself. -/
def purgeUser (db : DB) (uid : String) : DB :=
  { users := removeFirst (byId uid) db.users,
    analyses := db.analyses.filter (fun a => !(a.userId == uid)),
    consents := db.consents.filter (fun c => !(c.userId == uid)) }

/-- POST /gdpr/delete-account (src/routes/gdpr.js): confirmation check, then
`StripeService.cancelSubscription` (which rethrows on failure, aborting the
route with 500), then `ImageService.deleteUserImages` (which swallows
failures), then unconditional local deletion. -/
def deleteAccountHandler (db : DB) (uid confirmation : String) (ext : ExtOutcome) :
    DeleteResult :=
  match db.users.find? (byId uid) with
  | none => { status := 401, db := db, stripeCancelCalled := false, blobDeleteCalled := false }
  | some user =>
    if confirmation != "DELETE" then
      { status := 400, db := db, stripeCancelCalled := false, blobDeleteCalled := false }
    else
      match user.stripeSubscriptionId with
      | some _ =>
        if !ext.stripeCancelOk then
          { status := 500, db := db, stripeCancelCalled := true, blobDeleteCalled := false }
        else
          { status := 200, db := purgeUser db uid,
            stripeCancelCalled := true, blobDeleteCalled := true }
      | none =>
        { status := 200, db := purgeUser db uid,
          stripeCancelCalled := false, blobDeleteCalled := true }

/-- The field update shared by the two deletion-scheduling routes. -/
def setDeletionDate (t : Option Nat) (u : User) : User :=
  { u with accountDeletionScheduled := t }

/-- POST /gdpr/schedule-deletion (src/routes/gdpr.js): set
`accountDeletionScheduled` to now + 30 days. -/
def scheduleDeletionHandler (db : DB) (uid : String) (now : Nat) : HandlerResult :=
  match db.users.find? (byId uid) with
  | none => { status := 401, db := db }
  | some _ =>
    let users := updateFirst (byId uid) (setDeletionDate (some (now + 30 * msPerDay))) db.users
    { status := 200, db := { db with users := users } }

/-- POST /gdpr/cancel-deletion (src/routes/gdpr.js): set
`accountDeletionScheduled` to null unconditionally. -/
def cancelDeletionHandler (db : DB) (uid : String) : HandlerResult :=
  match db.users.find? (byId uid) with
  | none => { status := 401, db := db }
  | some _ =>
    let users := updateFirst (byId uid) (setDeletionDate none) db.users
    { status := 200, db := { db with users := users } }

/-! ### The state-mutating API surface as one step relation. -/

/-- One state-mutating API request, with its external outcomes inlined. -/
inductive ApiOp where
  | register (email pw hashedPw : String) (emailValid gdprConsentTrue : Bool)
      (language country : Option String) (now : Nat) (newUserId newConsentId ip ua : String)
  | login (email : String) (passwordMatches : Bool) (now : Nat)
  | analysisCreate (uid ip : String) (limiter : List (String × Nat)) (now : Nat)
      (file : Option UploadedFile) (qJson : Bool) (questionnaire : String)
      (areaBody : Option String) (ctx : AnalysisCtx)
  | analysisDelete (uid aid : String)
  | checkout (uid newCustomerId : String)
  | webhook (ev : StripeEvent)
  | consentUpdate (uid ctype : String) (given : Bool) (ip ua newId : String) (now : Nat)
  | accountDelete (uid confirmation : String) (ext : ExtOutcome)
  | scheduleDelete (uid : String) (now : Nat)
  | cancelDelete (uid : String)

/-- The datastore transition of one API request. -/
def apiStep (cfg : Config) (db : DB) : ApiOp → DB
  | .register email pw hashedPw ev gc lang ctry now nuid ncid ip ua =>
      (registerHandler db email pw hashedPw ev gc lang ctry now nuid ncid ip ua).db
  | .login email ok now => (loginHandler db email ok now).db
  | .analysisCreate uid ip limiter now file qJson q area ctx =>
      (postAnalysisHandler cfg db uid ip limiter now file qJson q area ctx).db
  | .analysisDelete uid aid => (deleteAnalysisHandler db uid aid).db
  | .checkout uid ncid => (createCheckoutHandler db uid ncid).db
  | .webhook ev => { db with users := handleWebhook db.users ev }
  | .consentUpdate uid ctype given ip ua nid now =>
      (consentHandler db uid ctype given ip ua nid now).db
  | .accountDelete uid confirmation ext => (deleteAccountHandler db uid confirmation ext).db
  | .scheduleDelete uid now => (scheduleDeletionHandler db uid now).db
  | .cancelDelete uid => (cancelDeletionHandler db uid).db

/-- A sample account used to instantiate theorems with hypotheses. -/
def baseUser : User :=
  { id := "u1", email := "u1@example.com", password := "bcrypted", isPremium := false,
    stripeCustomerId := some "cus_1", stripeSubscriptionId := none,
    subscriptionStatus := "inactive", language := "English", country := none,
    age := none, sex := none, gdprConsentDate := some 1000,
    marketingConsent := false, dataRetentionConsent := true,
    lastLogin := none, accountDeletionScheduled := none }

/-- A one-account sample datastore. -/
def baseDB : DB := { users := [baseUser], analyses := [], consents := [] }

/-! ### Helper lemmas on the row-update primitives. -/

theorem mem_updateFirst {p : α → Bool} {f : α → α} {l : List α} {a : α}
    (h : a ∈ updateFirst p f l) : a ∈ l ∨ ∃ b, b ∈ l ∧ p b = true ∧ a = f b := by
  induction l with
  | nil => simp [updateFirst] at h
  | cons b l ih =>
    by_cases hb : p b
    · rw [updateFirst, if_pos hb] at h
      rcases List.mem_cons.mp h with h | h
      · exact Or.inr ⟨b, List.mem_cons_self _ _, hb, h⟩
      · exact Or.inl (List.mem_cons_of_mem _ h)
    · rw [updateFirst, if_neg hb] at h
      rcases List.mem_cons.mp h with h | h
      · exact Or.inl (h ▸ List.mem_cons_self _ _)
      · rcases ih h with h | ⟨c, hc, hpc, hfc⟩
        · exact Or.inl (List.mem_cons_of_mem _ h)
        · exact Or.inr ⟨c, List.mem_cons_of_mem _ hc, hpc, hfc⟩

theorem updateFirst_idem {p : α → Bool} {f : α → α}
    (hp : ∀ a, p a = true → p (f a) = true) (hf : ∀ a, p a = true → f (f a) = f a)
    (l : List α) : updateFirst p f (updateFirst p f l) = updateFirst p f l := by
  induction l with
  | nil => rfl
  | cons b l ih =>
    by_cases hb : p b
    · rw [updateFirst, if_pos hb, updateFirst, if_pos (hp b hb), hf b hb]
    · rw [updateFirst, if_neg hb, updateFirst, if_neg hb, ih]

theorem find?_updateFirst (p : α → Bool) (f : α → α)
    (hp : ∀ a, p (f a) = p a) (l : List α) :
    (updateFirst p f l).find? p = (l.find? p).map f := by
  induction l with
  | nil => rfl
  | cons b l ih =>
    by_cases hb : p b
    · rw [updateFirst, if_pos hb, List.find?_cons_of_pos _ ((hp b).trans hb),
        List.find?_cons_of_pos _ hb]
      rfl
    · rw [updateFirst, if_neg hb, List.find?_cons_of_neg _ hb, List.find?_cons_of_neg _ hb, ih]

theorem mem_removeFirst {p : α → Bool} {l : List α} {a : α}
    (h : a ∈ removeFirst p l) : a ∈ l := by
  induction l with
  | nil => simp [removeFirst] at h
  | cons b l ih =>
    by_cases hb : p b
    · rw [removeFirst, if_pos hb] at h
      exact List.mem_cons_of_mem _ h
    · rw [removeFirst, if_neg hb] at h
      rcases List.mem_cons.mp h with h | h
      · exact h ▸ List.mem_cons_self _ _
      · exact List.mem_cons_of_mem _ (ih h)

theorem find?_append_of_none {p : α → Bool} {l₁ : List α} (h : l₁.find? p = none)
    (l₂ : List α) : (l₁ ++ l₂).find? p = l₂.find? p := by
  rw [List.find?_append, h, Option.none_or]

/-! ### Claim C1 -/

/-- C1, counterexample: an account that is premium with status `active`
violates the premium/status invariant after an `invoice.payment_failed`
webhook event, because `handlePaymentFailed` only writes
`subscriptionStatus` and leaves `isPremium` untouched. -/
theorem C1_counterexample :
    ¬ ∀ u ∈ handleWebhook
        [{ baseUser with isPremium := true, subscriptionStatus := "active" }]
        (StripeEvent.invoicePaymentFailed { customer := "cus_1" }),
      premiumInvariant u := by
  decide

/-- C1 (amended): after a subscription created, updated or deleted event the
handler re-establishes `isPremium = true ↔ subscriptionStatus = "active"`
for every account (assuming it held beforehand for the untouched accounts);
a payment-failed event, by contrast, sets status past_due without touching
the premium flag, so the invariant can break there. -/
theorem C1_amended (users : List User) (s : StripeSubscription)
    (hinv : ∀ u ∈ users, premiumInvariant u) :
    (∀ u ∈ handleWebhook users (.subscriptionCreated s), premiumInvariant u) ∧
    (∀ u ∈ handleWebhook users (.subscriptionUpdated s), premiumInvariant u) ∧
    (∀ u ∈ handleWebhook users (.subscriptionDeleted s), premiumInvariant u) := by
  refine ⟨?_, ?_, ?_⟩ <;> intro u hu <;>
    simp only [handleWebhook, updateSubscriptionStatus, handleSubscriptionDeleted] at hu <;>
    rcases mem_updateFirst hu with h | ⟨b, _, _, rfl⟩
  · exact hinv u h
  · simp [premiumInvariant]
  · exact hinv u h
  · simp [premiumInvariant]
  · exact hinv u h
  · simp [premiumInvariant]

/-- Witness for C1_amended at a concrete account and event. -/
theorem C1_amended_witness :
    (∀ u ∈ [baseUser], premiumInvariant u) ∧
    ((∀ u ∈ handleWebhook [baseUser]
        (.subscriptionCreated { id := "sub_1", customer := "cus_1", status := "active" }),
      premiumInvariant u) ∧
     (∀ u ∈ handleWebhook [baseUser]
        (.subscriptionUpdated { id := "sub_1", customer := "cus_1", status := "active" }),
      premiumInvariant u) ∧
     (∀ u ∈ handleWebhook [baseUser]
        (.subscriptionDeleted { id := "sub_1", customer := "cus_1", status := "active" }),
      premiumInvariant u)) :=
  ⟨by decide, C1_amended [baseUser] { id := "sub_1", customer := "cus_1", status := "active" }
    (by decide)⟩

/-! ### Claim C9 -/

/-- C9: the subscription created/updated webhook handler is idempotent:
re-applying the same event payload is a no-op, because it overwrites the
same three fields with the same values and the lookup key
(`stripeCustomerId`) is not modified. -/
theorem C9_webhook_idempotent (users : List User) (s : StripeSubscription) :
    handleWebhook (handleWebhook users (.subscriptionCreated s)) (.subscriptionCreated s) =
      handleWebhook users (.subscriptionCreated s) ∧
    handleWebhook (handleWebhook users (.subscriptionUpdated s)) (.subscriptionUpdated s) =
      handleWebhook users (.subscriptionUpdated s) := by
  have h : updateSubscriptionStatus (updateSubscriptionStatus users s) s =
      updateSubscriptionStatus users s := by
    apply updateFirst_idem
    · intro a ha
      exact ha
    · intro a _
      rfl
  exact ⟨h, h⟩

/-! ### Claim C2 -/

/-- C2, counterexample: with the correct confirmation phrase but a failing
BillingProvider cancel call, the route aborts with 500 and deletes no local
rows, because `StripeService.cancelSubscription` rethrows its error into
the route-level catch. -/
theorem C2_counterexample :
    let db : DB :=
      { users := [{ baseUser with stripeSubscriptionId := some "sub_1" }],
        analyses := [], consents := [] }
    let r := deleteAccountHandler db "u1" "DELETE"
      { stripeCancelOk := false, blobDeleteOk := true }
    r.status = 500 ∧ r.db = db := by
  decide

/-- C2 (amended): a BlobStore failure is swallowed (the outcome
`ext.blobDeleteOk` is arbitrary in the success clause), so local rows are
still deleted and the route returns ok; but a BillingProvider cancel
failure on an account with a subscription aborts the route with 500 and no
local row is deleted. -/
theorem C2_amended (db : DB) (uid : String) (u : User) (ext : ExtOutcome)
    (hu : db.users.find? (byId uid) = some u) :
    ((u.stripeSubscriptionId = none ∨ ext.stripeCancelOk = true) →
      (deleteAccountHandler db uid "DELETE" ext).status = 200 ∧
      (deleteAccountHandler db uid "DELETE" ext).db = purgeUser db uid) ∧
    (∀ sid, u.stripeSubscriptionId = some sid → ext.stripeCancelOk = false →
      (deleteAccountHandler db uid "DELETE" ext).status = 500 ∧
      (deleteAccountHandler db uid "DELETE" ext).db = db) := by
  constructor
  · intro h
    rcases h with h | h
    · simp [deleteAccountHandler, hu, h]
    · cases hs : u.stripeSubscriptionId with
      | none => simp [deleteAccountHandler, hu, hs]
      | some sid => simp [deleteAccountHandler, hu, hs, h]
  · intro sid hs hc
    simp [deleteAccountHandler, hu, hs, hc]

/-- Witness for C2_amended: account without a subscription, BlobStore call
failing; the deletion still succeeds. -/
theorem C2_amended_witness :
    (baseDB.users.find? (byId "u1") = some baseUser) ∧
    (((baseUser.stripeSubscriptionId = none ∨
         (ExtOutcome.mk true false).stripeCancelOk = true) →
        (deleteAccountHandler baseDB "u1" "DELETE" (ExtOutcome.mk true false)).status = 200 ∧
        (deleteAccountHandler baseDB "u1" "DELETE" (ExtOutcome.mk true false)).db =
          purgeUser baseDB "u1") ∧
     (∀ sid, baseUser.stripeSubscriptionId = some sid →
        (ExtOutcome.mk true false).stripeCancelOk = false →
        (deleteAccountHandler baseDB "u1" "DELETE" (ExtOutcome.mk true false)).status = 500 ∧
        (deleteAccountHandler baseDB "u1" "DELETE" (ExtOutcome.mk true false)).db = baseDB)) :=
  ⟨by decide, C2_amended baseDB "u1" baseUser (ExtOutcome.mk true false) (by decide)⟩

/-! ### Claim C4 -/

/-- C4: a mismatched confirmation phrase yields 400, the datastore is fully
unchanged (account, submissions, consent rows), and no external delete call
(Stripe cancel, blob delete) is issued. -/
theorem C4_confirmation_mismatch (db : DB) (uid conf : String) (u : User) (ext : ExtOutcome)
    (hu : db.users.find? (byId uid) = some u) (hconf : conf ≠ "DELETE") :
    (deleteAccountHandler db uid conf ext).status = 400 ∧
    (deleteAccountHandler db uid conf ext).db = db ∧
    (deleteAccountHandler db uid conf ext).stripeCancelCalled = false ∧
    (deleteAccountHandler db uid conf ext).blobDeleteCalled = false := by
  simp [deleteAccountHandler, hu, hconf]

/-- Witness for C4 at the phrase "delete" (wrong case). -/
theorem C4_witness :
    (baseDB.users.find? (byId "u1") = some baseUser ∧ "delete" ≠ "DELETE") ∧
    ((deleteAccountHandler baseDB "u1" "delete" (ExtOutcome.mk true true)).status = 400 ∧
     (deleteAccountHandler baseDB "u1" "delete" (ExtOutcome.mk true true)).db = baseDB ∧
     (deleteAccountHandler baseDB "u1" "delete" (ExtOutcome.mk true true)).stripeCancelCalled = false ∧
     (deleteAccountHandler baseDB "u1" "delete" (ExtOutcome.mk true true)).blobDeleteCalled = false) :=
  ⟨⟨by decide, by decide⟩,
   C4_confirmation_mismatch baseDB "u1" "delete" baseUser (ExtOutcome.mk true true)
     (by decide) (by decide)⟩

/-! ### Claim C3 -/

/-- C3, counterexample: an image with a disallowed media type (image/gif) is
rejected, no blob is stored and no Submission row is created, but the
status is 500, not 400: the thrown validation error lands in the generic
catch block of the route, which answers 500 with the error message. -/
theorem C3_counterexample :
    let r := postAnalysisHandler defaultConfig baseDB "u1" "1.2.3.4" [] 5000
      (some { mimetype := "image/gif", size := 100 }) true "q" none
      { upload := some ("https://cdn.example/x.jpg", "pid1"), aiResult := some "res",
        newId := "a1" }
    r.status = 500 ∧ ¬ r.status = 400 ∧ r.blobStored = false ∧ r.db = baseDB := by
  decide

/-- C3 (amended): a submission whose image has a disallowed media type or a
byte size above 10 MiB is rejected with HTTP 500 (multer errors and the
validateImage throw both reach generic 500 handlers), and no blob is stored
and no Submission row is persisted. -/
theorem C3_amended (cfg : Config) (db : DB) (uid ip : String)
    (limiter : List (String × Nat)) (now : Nat) (f : UploadedFile)
    (questionnaire : String) (areaBody : Option String) (ctx : AnalysisCtx) (u : User)
    (hu : db.users.find? (byId uid) = some u)
    (hconsent : u.gdprConsentDate.isNone = false)
    (hlim : hitCount limiter (analysisLimiterKey (some u) ip) now < analysisLimiterMax u)
    (hbad : allowedTypes.contains f.mimetype = false ∨ maxImageSize < f.size) :
    (postAnalysisHandler cfg db uid ip limiter now (some f) true questionnaire areaBody ctx).status = 500 ∧
    (postAnalysisHandler cfg db uid ip limiter now (some f) true questionnaire areaBody ctx).blobStored = false ∧
    (postAnalysisHandler cfg db uid ip limiter now (some f) true questionnaire areaBody ctx).db = db := by
  have hnotle : ¬ analysisLimiterMax u ≤ hitCount limiter (analysisLimiterKey (some u) ip) now := by
    omega
  by_cases hsw : mimeIsImage f.mimetype
  · by_cases hsize : maxImageSize < f.size
    · simp [postAnalysisHandler, hu, hconsent, hnotle, hsw, hsize]
    · rcases hbad with htype | hsize2
      · have htype2 : f.mimetype ∉ allowedTypes := by
          simpa using htype
        simp [postAnalysisHandler, hu, hconsent, hnotle, hsw, hsize, validateImage, htype2]
      · exact absurd hsize2 hsize
  · simp [postAnalysisHandler, hu, hconsent, hnotle, hsw]

/-- Witness for C3_amended at a small image/gif upload. -/
theorem C3_amended_witness :
    (baseDB.users.find? (byId "u1") = some baseUser ∧
     baseUser.gdprConsentDate.isNone = false ∧
     hitCount [] (analysisLimiterKey (some baseUser) "1.2.3.4") 5000 < analysisLimiterMax baseUser ∧
     (allowedTypes.contains (UploadedFile.mk "image/gif" 100).mimetype = false ∨
      maxImageSize < (UploadedFile.mk "image/gif" 100).size)) ∧
    ((postAnalysisHandler defaultConfig baseDB "u1" "1.2.3.4" [] 5000
        (some (UploadedFile.mk "image/gif" 100)) true "q" none
        (AnalysisCtx.mk (some ("https://cdn.example/x.jpg", "pid1")) (some "res") "a1")).status = 500 ∧
     (postAnalysisHandler defaultConfig baseDB "u1" "1.2.3.4" [] 5000
        (some (UploadedFile.mk "image/gif" 100)) true "q" none
        (AnalysisCtx.mk (some ("https://cdn.example/x.jpg", "pid1")) (some "res") "a1")).blobStored = false ∧
     (postAnalysisHandler defaultConfig baseDB "u1" "1.2.3.4" [] 5000
        (some (UploadedFile.mk "image/gif" 100)) true "q" none
        (AnalysisCtx.mk (some ("https://cdn.example/x.jpg", "pid1")) (some "res") "a1")).db = baseDB) :=
  ⟨⟨by decide, by decide, by decide, by decide⟩,
   C3_amended defaultConfig baseDB "u1" "1.2.3.4" [] 5000 (UploadedFile.mk "image/gif" 100)
     "q" none (AnalysisCtx.mk (some ("https://cdn.example/x.jpg", "pid1")) (some "res") "a1")
     baseUser (by decide) (by decide) (by decide) (by decide)⟩

/-! ### Claim C5 -/

/-- C5: an authenticated (and consented) account that has already recorded
its per-tier quota of requests (5 free, 50 premium, keyed by the account
id) inside the rolling hour is rejected with 429 by `analysisLimiter`
before the pipeline: `validateImage` is never invoked, no blob is stored
and the datastore is untouched. -/
theorem C5_rate_limited (cfg : Config) (db : DB) (uid ip : String)
    (limiter : List (String × Nat)) (now : Nat) (file : Option UploadedFile)
    (qJson : Bool) (questionnaire : String) (areaBody : Option String)
    (ctx : AnalysisCtx) (u : User)
    (hu : db.users.find? (byId uid) = some u)
    (hconsent : u.gdprConsentDate.isNone = false)
    (hlim : analysisLimiterMax u ≤ hitCount limiter (analysisLimiterKey (some u) ip) now) :
    (postAnalysisHandler cfg db uid ip limiter now file qJson questionnaire areaBody ctx).status = 429 ∧
    (postAnalysisHandler cfg db uid ip limiter now file qJson questionnaire areaBody ctx).validateCalled = false ∧
    (postAnalysisHandler cfg db uid ip limiter now file qJson questionnaire areaBody ctx).blobStored = false ∧
    (postAnalysisHandler cfg db uid ip limiter now file qJson questionnaire areaBody ctx).db = db := by
  simp [postAnalysisHandler, hu, hconsent, hlim]

/-- Witness for C5: a free-tier account with 5 recorded requests inside the
hour window. -/
theorem C5_witness :
    (baseDB.users.find? (byId "u1") = some baseUser ∧
     baseUser.gdprConsentDate.isNone = false ∧
     analysisLimiterMax baseUser ≤
       hitCount [("u1", 4000), ("u1", 4100), ("u1", 4200), ("u1", 4300), ("u1", 4400)]
         (analysisLimiterKey (some baseUser) "1.2.3.4") 5000) ∧
    ((postAnalysisHandler defaultConfig baseDB "u1" "1.2.3.4"
        [("u1", 4000), ("u1", 4100), ("u1", 4200), ("u1", 4300), ("u1", 4400)] 5000
        (some (UploadedFile.mk "image/jpeg" 100)) true "q" none
        (AnalysisCtx.mk (some ("https://cdn.example/x.jpg", "pid1")) (some "res") "a1")).status = 429 ∧
     (postAnalysisHandler defaultConfig baseDB "u1" "1.2.3.4"
        [("u1", 4000), ("u1", 4100), ("u1", 4200), ("u1", 4300), ("u1", 4400)] 5000
        (some (UploadedFile.mk "image/jpeg" 100)) true "q" none
        (AnalysisCtx.mk (some ("https://cdn.example/x.jpg", "pid1")) (some "res") "a1")).validateCalled = false ∧
     (postAnalysisHandler defaultConfig baseDB "u1" "1.2.3.4"
        [("u1", 4000), ("u1", 4100), ("u1", 4200), ("u1", 4300), ("u1", 4400)] 5000
        (some (UploadedFile.mk "image/jpeg" 100)) true "q" none
        (AnalysisCtx.mk (some ("https://cdn.example/x.jpg", "pid1")) (some "res") "a1")).blobStored = false ∧
     (postAnalysisHandler defaultConfig baseDB "u1" "1.2.3.4"
        [("u1", 4000), ("u1", 4100), ("u1", 4200), ("u1", 4300), ("u1", 4400)] 5000
        (some (UploadedFile.mk "image/jpeg" 100)) true "q" none
        (AnalysisCtx.mk (some ("https://cdn.example/x.jpg", "pid1")) (some "res") "a1")).db = baseDB) :=
  ⟨⟨by decide, by decide, by decide⟩,
   C5_rate_limited defaultConfig baseDB "u1" "1.2.3.4"
     [("u1", 4000), ("u1", 4100), ("u1", 4200), ("u1", 4300), ("u1", 4400)] 5000
     (some (UploadedFile.mk "image/jpeg" 100)) true "q" none
     (AnalysisCtx.mk (some ("https://cdn.example/x.jpg", "pid1")) (some "res") "a1")
     baseUser (by decide) (by decide) (by decide)⟩

/-! ### Claim C7 -/

/-- C7: schedule-then-cancel restores the null deletion timestamp;
scheduling twice measures the 30-day window from the second call; and the
cancel route answers 200 unconditionally for any authenticated account, in
particular when the timestamp is already null. -/
theorem C7_schedule_cancel (db : DB) (uid : String) (t1 t2 : Nat) (u : User)
    (hu : db.users.find? (byId uid) = some u) :
    (((cancelDeletionHandler (scheduleDeletionHandler db uid t1).db uid).db.users.find?
        (byId uid)).map (fun x => x.accountDeletionScheduled) = some none) ∧
    (((scheduleDeletionHandler (scheduleDeletionHandler db uid t1).db uid t2).db.users.find?
        (byId uid)).map (fun x => x.accountDeletionScheduled) =
      some (some (t2 + 30 * msPerDay))) ∧
    (cancelDeletionHandler db uid).status = 200 := by
  have h1 : (scheduleDeletionHandler db uid t1).db.users =
      updateFirst (byId uid) (setDeletionDate (some (t1 + 30 * msPerDay))) db.users := by
    simp [scheduleDeletionHandler, hu]
  have hf1 : (scheduleDeletionHandler db uid t1).db.users.find? (byId uid) =
      some (setDeletionDate (some (t1 + 30 * msPerDay)) u) := by
    rw [h1, find?_updateFirst (byId uid) (setDeletionDate (some (t1 + 30 * msPerDay)))
      (fun a => rfl), hu]
    rfl
  refine ⟨?_, ?_, ?_⟩
  · have hc1 : (cancelDeletionHandler (scheduleDeletionHandler db uid t1).db uid).db.users =
        updateFirst (byId uid) (setDeletionDate none)
          (scheduleDeletionHandler db uid t1).db.users := by
      generalize (scheduleDeletionHandler db uid t1).db = db1 at hf1 ⊢
      simp [cancelDeletionHandler, hf1]
    rw [hc1, find?_updateFirst (byId uid) (setDeletionDate none) (fun a => rfl), hf1]
    rfl
  · have h2 : (scheduleDeletionHandler (scheduleDeletionHandler db uid t1).db uid t2).db.users =
        updateFirst (byId uid) (setDeletionDate (some (t2 + 30 * msPerDay)))
          (scheduleDeletionHandler db uid t1).db.users := by
      generalize (scheduleDeletionHandler db uid t1).db = db1 at hf1 ⊢
      simp [scheduleDeletionHandler, hf1]
    rw [h2, find?_updateFirst (byId uid) (setDeletionDate (some (t2 + 30 * msPerDay)))
      (fun a => rfl), hf1]
    rfl
  · simp [cancelDeletionHandler, hu]

/-- Witness for C7 at a concrete account and two schedule times. -/
theorem C7_witness :
    (baseDB.users.find? (byId "u1") = some baseUser) ∧
    ((((cancelDeletionHandler (scheduleDeletionHandler baseDB "u1" 1000).db "u1").db.users.find?
        (byId "u1")).map (fun x => x.accountDeletionScheduled) = some none) ∧
     (((scheduleDeletionHandler (scheduleDeletionHandler baseDB "u1" 1000).db "u1" 2000).db.users.find?
        (byId "u1")).map (fun x => x.accountDeletionScheduled) =
       some (some (2000 + 30 * msPerDay))) ∧
     (cancelDeletionHandler baseDB "u1").status = 200) :=
  ⟨by decide, C7_schedule_cancel baseDB "u1" 1000 2000 baseUser (by decide)⟩

/-! ### Claim C8 -/

/-- C8: a first valid registration answers 201; a second registration with
the same email (any valid credential) fails with 400 and changes nothing;
every user row added by registration stores the bcrypt output `hashedPw`,
never the plaintext credential; and the response body carries only the id,
email, premium flag and tokens derived from the id. -/
theorem C8_register_unique_hashed (db : DB) (email pw hashedPw pw2 hashedPw2 : String)
    (lang ctry lang2 ctry2 : Option String) (now now2 : Nat)
    (nuid ncid nuid2 ncid2 ip ua ip2 ua2 : String)
    (hfresh : db.users.find? (byEmail email) = none)
    (hlen : 8 ≤ pw.length) (hlen2 : 8 ≤ pw2.length) :
    (registerHandler db email pw hashedPw true true lang ctry now nuid ncid ip ua).status = 201 ∧
    (registerHandler (registerHandler db email pw hashedPw true true lang ctry now nuid ncid ip ua).db
        email pw2 hashedPw2 true true lang2 ctry2 now2 nuid2 ncid2 ip2 ua2).status = 400 ∧
    (registerHandler (registerHandler db email pw hashedPw true true lang ctry now nuid ncid ip ua).db
        email pw2 hashedPw2 true true lang2 ctry2 now2 nuid2 ncid2 ip2 ua2).db =
      (registerHandler db email pw hashedPw true true lang ctry now nuid ncid ip ua).db ∧
    (∀ u ∈ (registerHandler db email pw hashedPw true true lang ctry now nuid ncid ip ua).db.users,
      u ∈ db.users ∨ u.password = hashedPw) ∧
    (registerHandler db email pw hashedPw true true lang ctry now nuid ncid ip ua).resp =
      some { id := nuid, email := email, isPremium := false,
             accessToken := (generateTokens nuid).1,
             refreshToken := (generateTokens nuid).2 } := by
  have hnl : ¬ pw.length < 8 := by omega
  have hnl2 : ¬ pw2.length < 8 := by omega
  refine ⟨?_, ?_, ?_, ?_, ?_⟩
  · simp [registerHandler, hnl, hfresh]
  · simp [registerHandler, hnl, hnl2, hfresh, find?_append_of_none hfresh, byEmail]
  · simp [registerHandler, hnl, hnl2, hfresh, find?_append_of_none hfresh, byEmail]
  · intro u hu
    simp [registerHandler, hnl, hfresh] at hu
    rcases hu with hu | hu
    · exact Or.inl hu
    · subst hu
      exact Or.inr rfl
  · simp [registerHandler, hnl, hfresh, generateTokens]

/-- Witness for C8 at a concrete fresh email. -/
theorem C8_witness :
    (baseDB.users.find? (byEmail "new@example.com") = none ∧
     8 ≤ ("password1" : String).length ∧ 8 ≤ ("password2" : String).length) ∧
    ((registerHandler baseDB "new@example.com" "password1" "bcrypthash1" true true none none
        2000 "u2" "c2" "9.9.9.9" "agent").status = 201 ∧
     (registerHandler (registerHandler baseDB "new@example.com" "password1" "bcrypthash1" true true
          none none 2000 "u2" "c2" "9.9.9.9" "agent").db
        "new@example.com" "password2" "bcrypthash2" true true none none 3000 "u3" "c3"
        "9.9.9.8" "agent2").status = 400 ∧
     (registerHandler (registerHandler baseDB "new@example.com" "password1" "bcrypthash1" true true
          none none 2000 "u2" "c2" "9.9.9.9" "agent").db
        "new@example.com" "password2" "bcrypthash2" true true none none 3000 "u3" "c3"
        "9.9.9.8" "agent2").db =
       (registerHandler baseDB "new@example.com" "password1" "bcrypthash1" true true none none
          2000 "u2" "c2" "9.9.9.9" "agent").db ∧
     (∀ u ∈ (registerHandler baseDB "new@example.com" "password1" "bcrypthash1" true true none none
          2000 "u2" "c2" "9.9.9.9" "agent").db.users,
        u ∈ baseDB.users ∨ u.password = "bcrypthash1") ∧
     (registerHandler baseDB "new@example.com" "password1" "bcrypthash1" true true none none
        2000 "u2" "c2" "9.9.9.9" "agent").resp =
       some { id := "u2", email := "new@example.com", isPremium := false,
              accessToken := (generateTokens "u2").1,
              refreshToken := (generateTokens "u2").2 }) :=
  ⟨⟨by decide, by decide, by decide⟩,
   C8_register_unique_hashed baseDB "new@example.com" "password1" "bcrypthash1" "password2"
     "bcrypthash2" none none none none 2000 3000 "u2" "c2" "u3" "c3" "9.9.9.9" "agent"
     "9.9.9.8" "agent2" (by decide) (by decide) (by decide)⟩

/-! ### Claim C10 -/

/-- C10: the consent endpoint rejects the essential (gdpr) category with 400
and leaves the datastore unchanged, so no gdpr ConsentRecord can be created
through it; and a request can only succeed for the marketing,
data_retention and cookies categories. -/
theorem C10_gdpr_consent_rejected (db : DB) (uid : String) (given : Bool)
    (ip ua nid : String) (now : Nat) (u : User)
    (hu : db.users.find? (byId uid) = some u) :
    (consentHandler db uid "gdpr" given ip ua nid now).status = 400 ∧
    (consentHandler db uid "gdpr" given ip ua nid now).db = db ∧
    (∀ ctype given2 ip2 ua2 nid2 now2,
      (consentHandler db uid ctype given2 ip2 ua2 nid2 now2).status = 200 →
      ctype ∈ (["marketing", "data_retention", "cookies"] : List String)) := by
  have hng : (["marketing", "data_retention", "cookies"] : List String).contains "gdpr" = false := by
    decide
  refine ⟨?_, ?_, ?_⟩
  · simp [consentHandler, hu, hng]
  · simp [consentHandler, hu, hng]
  · intro ctype given2 ip2 ua2 nid2 now2 h
    by_cases hc : ctype ∈ (["marketing", "data_retention", "cookies"] : List String)
    · exact hc
    · exfalso
      simp [consentHandler, hu, hc] at h

/-- Witness for C10 at a concrete account. -/
theorem C10_witness :
    (baseDB.users.find? (byId "u1") = some baseUser) ∧
    ((consentHandler baseDB "u1" "gdpr" true "9.9.9.9" "agent" "c9" 7000).status = 400 ∧
     (consentHandler baseDB "u1" "gdpr" true "9.9.9.9" "agent" "c9" 7000).db = baseDB ∧
     (∀ ctype given2 ip2 ua2 nid2 now2,
       (consentHandler baseDB "u1" ctype given2 ip2 ua2 nid2 now2).status = 200 →
       ctype ∈ (["marketing", "data_retention", "cookies"] : List String))) :=
  ⟨by decide, C10_gdpr_consent_rejected baseDB "u1" true "9.9.9.9" "agent" "c9" 7000 baseUser
    (by decide)⟩

/-! ### Claim C6 -/

theorem registerHandler_analyses (db : DB) (email pw hashedPw : String)
    (ev gc : Bool) (lang ctry : Option String) (now : Nat) (nuid ncid ip ua : String) :
    (registerHandler db email pw hashedPw ev gc lang ctry now nuid ncid ip ua).db.analyses =
      db.analyses := by
  unfold registerHandler
  repeat' split
  all_goals rfl

theorem loginHandler_analyses (db : DB) (email : String) (ok : Bool) (now : Nat) :
    (loginHandler db email ok now).db.analyses = db.analyses := by
  unfold loginHandler
  repeat' split
  all_goals rfl

theorem createCheckoutHandler_analyses (db : DB) (uid ncid : String) :
    (createCheckoutHandler db uid ncid).db.analyses = db.analyses := by
  unfold createCheckoutHandler
  repeat' split
  all_goals rfl

theorem consentHandler_analyses (db : DB) (uid ctype : String) (given : Bool)
    (ip ua nid : String) (now : Nat) :
    (consentHandler db uid ctype given ip ua nid now).db.analyses = db.analyses := by
  unfold consentHandler
  repeat' split
  all_goals rfl

theorem scheduleDeletionHandler_analyses (db : DB) (uid : String) (now : Nat) :
    (scheduleDeletionHandler db uid now).db.analyses = db.analyses := by
  unfold scheduleDeletionHandler
  repeat' split
  all_goals rfl

theorem cancelDeletionHandler_analyses (db : DB) (uid : String) :
    (cancelDeletionHandler db uid).db.analyses = db.analyses := by
  unfold cancelDeletionHandler
  repeat' split
  all_goals rfl

theorem deleteAnalysisHandler_analyses (db : DB) (uid aid : String) :
    ∀ a ∈ (deleteAnalysisHandler db uid aid).db.analyses, a ∈ db.analyses := by
  intro a ha
  unfold deleteAnalysisHandler at ha
  repeat' split at ha
  all_goals first
  | exact ha
  | exact mem_removeFirst ha

theorem deleteAccountHandler_analyses (db : DB) (uid conf : String) (ext : ExtOutcome) :
    ∀ a ∈ (deleteAccountHandler db uid conf ext).db.analyses, a ∈ db.analyses := by
  intro a ha
  unfold deleteAccountHandler purgeUser at ha
  repeat' split at ha
  all_goals first
  | exact ha
  | exact (List.mem_filter.mp ha).1

theorem postAnalysisHandler_analyses (cfg : Config) (db : DB) (uid ip : String)
    (limiter : List (String × Nat)) (now : Nat) (file : Option UploadedFile)
    (qJson : Bool) (q : String) (areaBody : Option String) (ctx : AnalysisCtx) :
    ∀ a ∈ (postAnalysisHandler cfg db uid ip limiter now file qJson q areaBody ctx).db.analyses,
      a ∈ db.analyses ∨ a.scheduledDeletion = a.createdAt + cfg.retentionDays * msPerDay := by
  intro a ha
  unfold postAnalysisHandler at ha
  repeat' split at ha
  all_goals first
  | exact Or.inl ha
  | (simp only [List.mem_append, List.mem_singleton] at ha
     rcases ha with h | h
     · exact Or.inl h
     · subst h
       exact Or.inr rfl)

/-- C6: across every state-mutating API operation, a Submission row of the
post-state either already existed before the step with all fields unchanged
(rows are never updated in place; deletion only removes them) or is a row
freshly created by POST /analysis, whose scheduled expiry equals its
creation time plus the configured retention window (`defaultConfig` has the
shipped 365 days). -/
theorem C6_expiry_immutable (cfg : Config) (db : DB) (op : ApiOp) :
    ∀ a ∈ (apiStep cfg db op).analyses,
      a ∈ db.analyses ∨ a.scheduledDeletion = a.createdAt + cfg.retentionDays * msPerDay := by
  intro a ha
  cases op with
  | register email pw hashedPw ev gc lang ctry now nuid ncid ip ua =>
    simp only [apiStep] at ha
    rw [registerHandler_analyses] at ha
    exact Or.inl ha
  | login email ok now =>
    simp only [apiStep] at ha
    rw [loginHandler_analyses] at ha
    exact Or.inl ha
  | analysisCreate uid ip limiter now file qJson q areaBody ctx =>
    simp only [apiStep] at ha
    exact postAnalysisHandler_analyses cfg db uid ip limiter now file qJson q areaBody ctx a ha
  | analysisDelete uid aid =>
    simp only [apiStep] at ha
    exact Or.inl (deleteAnalysisHandler_analyses db uid aid a ha)
  | checkout uid ncid =>
    simp only [apiStep] at ha
    rw [createCheckoutHandler_analyses] at ha
    exact Or.inl ha
  | webhook ev =>
    simp only [apiStep] at ha
    exact Or.inl ha
  | consentUpdate uid ctype given ip ua nid now =>
    simp only [apiStep] at ha
    rw [consentHandler_analyses] at ha
    exact Or.inl ha
  | accountDelete uid confirmation ext =>
    simp only [apiStep] at ha
    exact Or.inl (deleteAccountHandler_analyses db uid confirmation ext a ha)
  | scheduleDelete uid now =>
    simp only [apiStep] at ha
    rw [scheduleDeletionHandler_analyses] at ha
    exact Or.inl ha
  | cancelDelete uid =>
    simp only [apiStep] at ha
    rw [cancelDeletionHandler_analyses] at ha
    exact Or.inl ha

/-- The Submission row created by the witness operation below. -/
def sampleAnalysis : Analysis :=
  { id := "a1", userId := "u1", imageUrl := "https://cdn.example/x.jpg",
    imagePublicId := "pid1", affectedArea := "unknown", questionnaire := "q",
    aiResult := "res", isPremiumAnalysis := false,
    scheduledDeletion := 5000 + 365 * msPerDay, createdAt := 5000 }

/-- A successful submission-creation operation on `baseDB`. -/
def sampleCreateOp : ApiOp :=
  ApiOp.analysisCreate "u1" "1.2.3.4" [] 5000 (some (UploadedFile.mk "image/jpeg" 100))
    true "q" none
    (AnalysisCtx.mk (some ("https://cdn.example/x.jpg", "pid1")) (some "res") "a1")

/-- Witness for C6 at a concrete successful creation. -/
theorem C6_witness :
    sampleAnalysis ∈ (apiStep defaultConfig baseDB sampleCreateOp).analyses ∧
    (sampleAnalysis ∈ baseDB.analyses ∨
     sampleAnalysis.scheduledDeletion =
       sampleAnalysis.createdAt + defaultConfig.retentionDays * msPerDay) :=
  ⟨by decide, C6_expiry_immutable defaultConfig baseDB sampleCreateOp sampleAnalysis (by decide)⟩

end ReDerma
